import Mathlib

/-!
Verification of the Coursify scrapers' incremental extraction-and-reconciliation
core: a shallow embedding of the pure logic of
`apps/scrapers/rmp_scraper.py`, `apps/scrapers/reddit_scraper.py` and
`apps/scrapers/course-scraper.py`, together with theorems settling the
specification's claims about that logic.

External collaborators (the browser-automation layer, the HTTP layer, the
persistent store, the TextBlob polarity model) are modelled as inputs: the
embedding receives the already-fetched page content (dropdown lines, review
blocks, posts, comments, snapshot rows) and the polarity function as
parameters, and returns the records the Python code would send to the store.
Python exceptions that escape a function are modelled with `Except`; `None`
is modelled with `Option`.
-/

set_option maxRecDepth 10000

namespace Scrapers

/-! ## Character and string primitives (Python semantics) -/

/-- Python `str.isspace` on one character, as used by `strip` and the `\s`
regex class: space, tab, newline, carriage return, vertical tab, form feed. -/
def isPySpace (c : Char) : Bool :=
  c = ' ' || c = '\t' || c = '\n' || c = '\x0d' || c = '\x0b' || c = '\x0c'

/-- ASCII lower-case letter test. -/
def isLowerCh (c : Char) : Bool := 'a' ≤ c && c ≤ 'z'

/-- ASCII upper-case letter test. -/
def isUpperCh (c : Char) : Bool := 'A' ≤ c && c ≤ 'Z'

/-- ASCII letter test (the `[A-Za-z]` regex class). -/
def isLetterCh (c : Char) : Bool := isLowerCh c || isUpperCh c

/-- ASCII digit test (the `\d` regex class). -/
def isDigitCh (c : Char) : Bool := '0' ≤ c && c ≤ '9'

/-- Regex word-character class `\w`, used for `\b` word boundaries. -/
def isWordCh (c : Char) : Bool := isLetterCh c || isDigitCh c || c = '_'

/-- ASCII case folding of one character, as Python `str.lower` does on the
ASCII inputs this pipeline handles. -/
def lowerCh (c : Char) : Char :=
  if isUpperCh c then Char.ofNat (c.toNat + 32) else c

/-- ASCII upper-casing of one character (Python `str.upper`). -/
def upperCh (c : Char) : Char :=
  if isLowerCh c then Char.ofNat (c.toNat - 32) else c

/-- Python `str.lower`. -/
def pyLower (s : String) : String := String.mk (s.data.map lowerCh)

/-- Python `str.upper`. -/
def pyUpper (s : String) : String := String.mk (s.data.map upperCh)

/-- Python `str.strip()`: drop leading and trailing whitespace. -/
def pyStrip (s : String) : String :=
  String.mk (((s.data.dropWhile isPySpace).reverse.dropWhile isPySpace).reverse)

/-- Python `str.replace(" ", "")`: delete every space character. -/
def removeSpaces (s : String) : String :=
  String.mk (s.data.filter (fun c => c ≠ ' '))

/-- Does the character list `s` start with the list `p`? -/
def startsWithL (p s : List Char) : Bool :=
  match p, s with
  | [], _ => true
  | _ :: _, [] => false
  | a :: p, b :: s => a = b && startsWithL p s

/-- Substring containment on character lists (Python `in` on `str`). -/
def containsSub (p : List Char) : List Char → Bool
  | [] => startsWithL p []
  | c :: rest => startsWithL p (c :: rest) || containsSub p rest

/-- Python `sub in s` for strings. -/
def pyIn (sub s : String) : Bool := containsSub sub.data s.data

/-- Python `str.startswith`. -/
def pyStartsWith (s p : String) : Bool := startsWithL p.data s.data

/-- Python string `<` : lexicographic comparison by code point. -/
def strLtL : List Char → List Char → Bool
  | [], [] => false
  | [], _ :: _ => true
  | _ :: _, [] => false
  | a :: as, b :: bs =>
    if a.toNat < b.toNat then true
    else if b.toNat < a.toNat then false
    else strLtL as bs

/-- Python string `<=`, the comparison the review-date watermark check uses
(on ISO `YYYY-MM-DD` strings it coincides with date order). -/
def pyStrLe (s t : String) : Bool := strLtL s.data t.data || s = t

/-- Python `str.isdigit` (nonempty, all digits). -/
def pyIsDigit (s : String) : Bool := !s.data.isEmpty && s.data.all isDigitCh

/-- Python `str.isalpha` (nonempty, all letters). -/
def pyIsAlpha (s : String) : Bool := !s.data.isEmpty && s.data.all isLetterCh

/-- Leading run of characters satisfying `p` (regex `^X+` anchored match). -/
def leadingRun (p : Char → Bool) (s : List Char) : List Char := s.takeWhile p

/-- Accumulator worker for `digitRuns`: `cur` is the reversed digit run
currently being read. -/
def digitRunsAux : List Char → List Char → List (List Char)
  | [], cur => if cur.isEmpty then [] else [cur.reverse]
  | c :: rest, cur =>
    if isDigitCh c then digitRunsAux rest (c :: cur)
    else if cur.isEmpty then digitRunsAux rest []
    else cur.reverse :: digitRunsAux rest []

/-- All maximal digit runs of a string, in order: `re.findall(r"\d+", s)`. -/
def digitRuns (l : List Char) : List (List Char) := digitRunsAux l []

/-- Insert-if-absent, modelling a Python `set.add` observed through
membership only (iteration order is the insertion order of this list). -/
def setInsert (x : String) (s : List String) : List String :=
  if x ∈ s then s else s ++ [x]

/-- Last-wins association-list update, modelling `dict[k] = v`. -/
def dictInsert {α : Type} (k : String) (v : α) (d : List (String × α)) :
    List (String × α) :=
  if d.any (fun e => e.1 = k) then
    d.map (fun e => if e.1 = k then (k, v) else e)
  else
    d ++ [(k, v)]

/-- Association-list lookup, modelling `dict[k]` / `dict.get(k)`. -/
def dictFind {α : Type} (d : List (String × α)) (k : String) : Option α :=
  (d.find? (fun e => e.1 = k)).map (·.2)

/-! ## rmp_scraper.py : clean_and_map_course_codes -/

/-- The cleaning applied to each raw code in both passes:
`raw_code.strip().replace(" ", "").upper()`. -/
def cleanedOf (raw : String) : String := pyUpper (removeSpaces (pyStrip raw))

/-- The three derived sets the first pass accumulates, as insertion-ordered
lists: accepted department prefixes, accepted 3-digit numbers, and derived
valid `"DEPT NUM"` strings. -/
structure DerivedSets where
  deptCodes : List String
  numCodes : List String
  derived : List String
deriving Repr, DecidableEq

/-- One iteration of the derivation pass (first `for raw_code in course_codes`
loop of `clean_and_map_course_codes`). -/
def derive1 (valid_courses : List String) (st : DerivedSets) (raw : String) :
    DerivedSets :=
  let cleaned := cleanedOf raw
  let pfx := String.mk (leadingRun isUpperCh cleaned.data)
  let nums := digitRuns cleaned.data
  let st :=
    if pfx ≠ "" ∧ valid_courses.any (fun v => pyStartsWith (removeSpaces v) pfx) then
      { st with deptCodes := setInsert pfx st.deptCodes }
    else st
  nums.foldl
    (fun st num =>
      if num.length ≥ 3 then
        let num3 := String.mk (num.take 3)
        st.deptCodes.foldl
          (fun st dept =>
            let cand := dept ++ " " ++ num3
            if valid_courses.contains cand then
              { st with numCodes := setInsert num3 st.numCodes,
                        derived := setInsert cand st.derived }
            else st)
          st
      else st)
    st

/-- The whole derivation pass over all raw inputs. -/
def buildDerived (course_codes valid_courses : List String) : DerivedSets :=
  course_codes.foldl (derive1 valid_courses) ⟨[], [], []⟩

/-- Consecutive chunks of (up to) 3 characters: the
`while idx < len(suffix): num = suffix[idx:idx+3]; idx += 3` loop. -/
def chunks3 : List Char → List (List Char)
  | [] => []
  | [a] => [[a]]
  | [a, b] => [[a, b]]
  | a :: b :: c :: rest => [a, b, c] :: chunks3 rest

/-- Candidate collection shared by mapping-pass branches (b) and (c): test
`f"{dept} {num}"` against the derived-valid set for every accepted
department, appending every hit. -/
def collectCandidates (ds : DerivedSets) (num : String) (acc : List String) :
    List String :=
  ds.deptCodes.foldl
    (fun acc dept =>
      let cand := dept ++ " " ++ num
      if ds.derived.contains cand then acc ++ [cand] else acc)
    acc

/-- The mapping pass for one raw code. `Except.error ()` models the
`TypeError` that `len(matches)` raises when the source set `matches = None`:
the value stored on success is `some codes` for a singleton hit and `none`
for zero or several candidates. -/
def mapOneCode (noSpace : List (String × String)) (ds : DerivedSets)
    (raw : String) : Except Unit (Option (List String)) :=
  let cleaned := cleanedOf raw
  let matchesOpt : Option (List String) :=
    match dictFind noSpace cleaned with
    | some v => some [v]
    | none =>
      let pfx := String.mk (leadingRun isUpperCh cleaned.data)
      let nums := digitRuns cleaned.data
      if pfx ≠ "" ∧ nums ≠ [] then
        let suffix := cleaned.data.drop pfx.length
        some ((chunks3 suffix).foldl
          (fun acc chunk => collectCandidates ds (String.mk chunk) acc) [])
      else if pyIsDigit cleaned ∧ cleaned.length = 3 then
        if ds.numCodes.contains cleaned then
          some (collectCandidates ds cleaned [])
        else none
      else none
  match matchesOpt with
  | none => Except.error ()
  | some ms => Except.ok (if ms.length = 1 then some ms else none)

/-- `clean_and_map_course_codes(course_codes, valid_courses)`: the two-pass
reconciler of `rmp_scraper.py`.  Sets are modelled as insertion-ordered
lists; the result is the `course_mapping` dict as an association list.
An `Except.error ()` result models the run crashing with `TypeError`
(`len(None)`), which in the source escapes the function. -/
def clean_and_map_course_codes (course_codes valid_courses : List String) :
    Except Unit (List (String × Option (List String))) :=
  let noSpace := valid_courses.foldl
    (fun d c => dictInsert (pyUpper (removeSpaces c)) c d) []
  let ds := buildDerived course_codes valid_courses
  course_codes.foldlM
    (fun acc raw => do
      let v ← mapOneCode noSpace ds raw
      pure (dictInsert raw v acc))
    []

/-! ## Regex models

Executable models of the three regular expressions of `reddit_scraper.py`
(`re.search` semantics: leftmost match, alternatives and optional parts
tried left to right / greedily). -/

/-- Word boundary after a match: end of text, or a non-word character. -/
def boundaryAfter (l : List Char) : Bool :=
  match l with
  | [] => true
  | c :: _ => !isWordCh c

/-- After `"not"` was read: one-or-more whitespace already begun, then one of
the alternatives; models the backtracking of `\s+(alt|...)`. -/
def altAfterSpaces (alts : List String) : List Char → Bool
  | [] => alts.any (fun a => a.isEmpty)
  | c :: rest =>
    alts.any (fun a => startsWithL a.data (c :: rest)) ||
      (isPySpace c && altAfterSpaces alts rest)

/-- Matches `\s+(alt|...)` at the start of `l`. -/
def wsThenAlt (alts : List String) : List Char → Bool
  | [] => false
  | c :: rest => isPySpace c && altAfterSpaces alts rest

/-- Models `re.search(r"not\s+(alt1|alt2|...)", body)` as used by the
negation pre-check of `detect_tags`. -/
def searchNotThen (alts : List String) : List Char → Bool
  | [] => false
  | c :: rest =>
    (startsWithL ['n', 'o', 't'] (c :: rest) && wsThenAlt alts ((c :: rest).drop 3)) ||
      searchNotThen alts rest

/-- Take exactly four ASCII letters (`[A-Za-z]{4}`). -/
def take4Letters (l : List Char) : Option (List Char × List Char) :=
  match l with
  | a :: b :: c :: d :: rest =>
    if [a, b, c, d].all isLetterCh then some ([a, b, c, d], rest) else none
  | _ => none

/-- Take exactly three ASCII digits (`\d{3}`). -/
def take3Digits (l : List Char) : Option (List Char × List Char) :=
  match l with
  | a :: b :: c :: rest =>
    if [a, b, c].all isDigitCh then some ([a, b, c], rest) else none
  | _ => none

/-- Attempt `[A-Za-z]{4}\s?\d{3}\b` at the current position (the leading
`\b` check is done by the caller); `\s?` is greedy, so the variant with the
space is tried first. -/
def matchCourseAt (l : List Char) : Option (List Char) :=
  (take4Letters l).bind (fun p =>
    let withSpace : Option (List Char) :=
      match p.2 with
      | c :: rest2 =>
        if isPySpace c then
          (take3Digits rest2).bind (fun q =>
            if boundaryAfter q.2 then some (p.1 ++ c :: q.1) else none)
        else none
      | [] => none
    match withSpace with
    | some m => some m
    | none =>
      (take3Digits p.2).bind (fun q =>
        if boundaryAfter q.2 then some (p.1 ++ q.1) else none))

/-- `re.search` for `COURSE_CODE_REGEX = r'\b[A-Za-z]{4}\s?\d{3}\b'`:
scan left to right, keeping the previous character for the `\b` test, and
return the first (leftmost) matched substring. -/
def searchCourse (prev : Option Char) : List Char → Option (List Char)
  | [] => none
  | c :: rest =>
    let boundaryOk := match prev with | none => true | some p => !isWordCh p
    match (if boundaryOk then matchCourseAt (c :: rest) else none) with
    | some m => some m
    | none => searchCourse (some c) rest

/-- Four upper-case letters directly followed by three digits, the pattern of
`re.sub(r"([A-Z]{4})(\d{3})", r"\1 \2", s)`. -/
def isUpper4Digit3 : List Char → Bool
  | a :: b :: c :: d :: e :: f :: g :: _ =>
    [a, b, c, d].all isUpperCh && [e, f, g].all isDigitCh
  | _ => false

/-- `re.sub(r"([A-Z]{4})(\d{3})", r"\1 \2", s)`: insert a space between the
letter and digit groups, left to right, non-overlapping. -/
def insertSpaceSub : List Char → List Char
  | a :: b :: c :: d :: e :: f :: g :: rest =>
    if [a, b, c, d].all isUpperCh && [e, f, g].all isDigitCh then
      a :: b :: c :: d :: ' ' :: e :: f :: g :: insertSpaceSub rest
    else a :: insertSpaceSub (b :: c :: d :: e :: f :: g :: rest)
  | l => l

/-- `[A-Z][a-z]+` with maximal munch (justified: the following pattern
element can never match a lower-case letter, so greedy needs no backtrack). -/
def takeCapName (l : List Char) : Option (List Char × List Char) :=
  match l with
  | c :: rest =>
    if isUpperCh c then
      let low := rest.takeWhile isLowerCh
      if low.isEmpty then none else some (c :: low, rest.dropWhile isLowerCh)
    else none
  | [] => none

/-- `\s+[A-Z][a-z]+\s+[A-Z][a-z]+\b`, the part of the professor-name regex
after the title (maximal munch throughout, justified as for `takeCapName`). -/
def profTail (l : List Char) : Option (List Char) :=
  let ws1 := l.takeWhile isPySpace
  if ws1.isEmpty then none
  else
    match takeCapName (l.dropWhile isPySpace) with
    | none => none
    | some (n1, r1) =>
      let ws2 := r1.takeWhile isPySpace
      if ws2.isEmpty then none
      else
        match takeCapName (r1.dropWhile isPySpace) with
        | none => none
        | some (n2, r2) =>
          if boundaryAfter r2 then some (ws1 ++ n1 ++ ws2 ++ n2) else none

/-- Try the title alternatives of `(?:Prof\.?|Dr\.?)` in regex order
(greedy optional dot first). -/
def tryTitles : List String → List Char → Option (List Char)
  | [], _ => none
  | t :: ts, l =>
    if startsWithL t.data l then
      match profTail (l.drop t.length) with
      | some tail => some (t.data ++ tail)
      | none => tryTitles ts l
    else tryTitles ts l

/-- `re.search` for
`PROF_NAME_REGEX = r'\b(?:Prof\.?|Dr\.?)\s+[A-Z][a-z]+\s+[A-Z][a-z]+\b'`. -/
def searchProf (prev : Option Char) : List Char → Option (List Char)
  | [] => none
  | c :: rest =>
    let boundaryOk := match prev with | none => true | some p => !isWordCh p
    match (if boundaryOk then tryTitles ["Prof.", "Prof", "Dr.", "Dr"] (c :: rest) else none) with
    | some m => some m
    | none => searchProf (some c) rest

/-! ## reddit_scraper.py -/

/-- A Reddit submission as the scraper reads it (fields of the `praw` post
object that `reddit_scraper.py` touches). -/
structure RedditPost where
  title : String
  selftext : String
  url : String
  is_self : Bool
  over_18 : Bool
  locked : Bool
  score : Int
  num_comments : Nat
deriving Repr, DecidableEq

/-- A Reddit comment as the scraper reads it.  `created_date` is the
ISO date string `datetime.utcfromtimestamp(comment.created_utc).date()
.isoformat()` computes; the timestamp conversion itself is a library
collaborator and is taken as input. -/
structure RedditComment where
  body : String
  score : Int
  created_date : String
deriving Repr, DecidableEq

/-- The `comment_data` dict inserted into `rag_chunks` by the Reddit path. -/
structure RedditChunk where
  text : String
  source : String
  course_code : Option String
  source_url : String
  tags : List String
  professor_name : Option String
  sentiment_score : Rat
  sentiment_label : String
  upvotes : Int
  created_at : String
deriving Repr, DecidableEq

/-- The threshold constant `0.5`, written as an explicit reduced fraction
(a `Rat` scientific literal does not evaluate inside the kernel). -/
def ratHalf : Rat := ⟨1, 2, by norm_num, by simp⟩

/-- The threshold constant `0.2`. -/
def ratFifth : Rat := ⟨1, 5, by norm_num, by simp⟩

/-- The threshold constant `-0.5`. -/
def ratNegHalf : Rat := ⟨-1, 2, by norm_num, by simp⟩

/-- The threshold constant `-0.2`. -/
def ratNegFifth : Rat := ⟨-1, 5, by norm_num, by simp⟩

theorem ratHalf_eq : ratHalf = 0.5 := by
  apply Rat.ext <;> norm_num [ratHalf]

theorem ratFifth_eq : ratFifth = 0.2 := by
  apply Rat.ext <;> norm_num [ratFifth]

theorem ratNegHalf_eq : ratNegHalf = -0.5 := by
  apply Rat.ext <;> norm_num [ratNegHalf]

theorem ratNegFifth_eq : ratNegFifth = -0.2 := by
  apply Rat.ext <;> norm_num [ratNegFifth]

/-- `detect_sentiment(text)`: thresholds over the TextBlob polarity score;
the polarity model itself is an external collaborator, passed as `pol`.
The threshold constants `0.5`, `0.2`, `-0.5`, `-0.2` of the source appear
through the `rat*` definitions above (proved equal to the literals). -/
def detect_sentiment (pol : String → Rat) (text : String) : Rat × String :=
  let sentiment_score := pol text
  let sentiment_label :=
    if sentiment_score > ratHalf then "very positive"
    else if sentiment_score > ratFifth then "positive"
    else if sentiment_score < ratNegHalf then "very negative"
    else if sentiment_score < ratNegFifth then "negative"
    else "neutral"
  (sentiment_score, sentiment_label)

/-- `detect_tags(text)` of `reddit_scraper.py`: keyword matching on the
lower-cased body, with the two difficulty tags suppressed by the negation
pre-check regexes. -/
def detect_tags (text : String) : List String :=
  let body := pyLower text
  let is_not_easy := searchNotThen ["easy", "light", "bird course", "straightforward"] body.data
  let is_not_hard := searchNotThen ["hard", "tough", "difficult", "challenging", "brutal", "intense"] body.data
  let tags : List String := []
  let tags := if !is_not_easy &&
      ["easy", "light", "bird course", "manageable", "straightforward"].any (fun w => pyIn w body) then
      tags ++ ["easy"] else tags
  let tags := if !is_not_hard &&
      ["hard", "tough", "difficult", "challenging", "brutal", "intense"].any (fun w => pyIn w body) then
      tags ++ ["hard"] else tags
  let tags := if ["professor", "lecturer", "teaching", "instructor", "teaches", "taught"].any (fun w => pyIn w body) then
      tags ++ ["professor_review"] else tags
  let tags := if ["exam", "midterm", "final", "assignment", "homework", "reading", "workload", "labs", "quizzes", "group project"].any (fun w => pyIn w body) then
      tags ++ ["course_structure"] else tags
  let tags := if ["recommend", "tip", "advice", "suggest", "strategy", "resource", "how to study"].any (fun w => pyIn w body) then
      tags ++ ["tips"] else tags
  tags

/-- `extract_prof_name_from_post`: first `PROF_NAME_REGEX` match over
`f"{post.title} {post.selftext}"`. -/
def extract_prof_name_from_post (post : RedditPost) : Option String :=
  (searchProf none (post.title ++ " " ++ post.selftext).data).map String.mk

/-- `extract_prof_name_from_comment`: first `PROF_NAME_REGEX` match over the
comment body. -/
def extract_prof_name_from_comment (comment : RedditComment) : Option String :=
  (searchProf none comment.body.data).map String.mk

/-- `is_comment_of_interest` of `reddit_scraper.py`. -/
def is_comment_of_interest (comment : RedditComment) : Bool :=
  let body := pyStrip comment.body
  if body = "" then false
  else if pyLower body = "[deleted]" || pyLower body = "[removed]" then false
  else if comment.score < 1 then false
  else if body.length < 15 then false
  else true

/-- Normalization applied to a matched course code:
`group(0).replace(" ", "").upper()` then the space-inserting `re.sub`. -/
def normalizeCourseMatch (m : List Char) : String :=
  String.mk (insertSpaceSub (pyUpper (removeSpaces (String.mk m))).data)

/-- `extract_course_code_from_post`: first `COURSE_CODE_REGEX` match over
`f"{post.title} {post.selftext}"`, normalized. -/
def extract_course_code_from_post (post : RedditPost) : Option String :=
  (searchCourse none (post.title ++ " " ++ post.selftext).data).map normalizeCourseMatch

/-- `extract_course_code_from_comment`. -/
def extract_course_code_from_comment (comment : RedditComment) : Option String :=
  (searchCourse none comment.body.data).map normalizeCourseMatch

/-- `is_post_of_interest` of `reddit_scraper.py`. -/
def is_post_of_interest (post : RedditPost) : Bool :=
  if !post.is_self then false
  else if post.over_18 then false
  else if pyStrip post.selftext = "" then false
  else
    let full_text := pyLower post.title ++ " " ++ pyLower post.selftext
    if !((searchCourse none full_text.data).isSome ||
        ["courses", "course", "classes", "electives", "program requirements",
         "bird courses", "easy A"].any (fun w => pyIn w full_text)) then false
    else if post.locked then false
    else if post.score < 2 || post.num_comments = 0 then false
    else true

/-- The per-comment body of the loop in `scrape_and_store`, returning the
possibly-updated post-level `prof_name` (the source assigns the extraction
result back to the post-level variable) and the chunks inserted for this
comment.  The first stored alternative mirrors the source's
`if temp_course_code is None:` branch, which is unreachable because of the
preceding `continue`. -/
def process_comment (pol : String → Rat) (courses professors : List String)
    (post_url : String) (post_course : Option String) (prof0 : Option String)
    (c : RedditComment) : Option String × List RedditChunk :=
  if !is_comment_of_interest c then (prof0, []) else
  let temp := match post_course with
    | some cc => some cc
    | none => extract_course_code_from_comment c
  if temp = none then (prof0, []) else
  let prof1 := match prof0 with
    | none => extract_prof_name_from_comment c
    | some p => some p
  let tags := detect_tags c.body
  let sp := detect_sentiment pol c.body
  let data : RedditChunk :=
    { text := c.body, source := "reddit", course_code := temp,
      source_url := post_url, tags := tags, professor_name := prof1,
      sentiment_score := sp.1, sentiment_label := sp.2,
      upvotes := c.score, created_at := c.created_date }
  let stored1 : List RedditChunk :=
    if temp = none then
      if prof1 ≠ none then [{ data with course_code := some "general_course" }] else []
    else []
  let stored2 : List RedditChunk :=
    if temp.any (fun tc => courses.contains tc) then
      [{ data with professor_name :=
          if (match prof1 with | some p => professors.contains p | none => false) then prof1
          else some "general_prof" }]
    else []
  (prof1, stored1 ++ stored2)

/-- The per-post body of `scrape_and_store`: skip already-processed and
uninteresting posts, extract the post-level course code and professor name,
then fold the comment loop (threading the leaking `prof_name` variable). -/
def process_post (pol : String → Rat) (courses professors processed : List String)
    (post : RedditPost) (comments : List RedditComment) : List RedditChunk :=
  if processed.contains post.url then [] else
  if !is_post_of_interest post then [] else
  let course_code := extract_course_code_from_post post
  let prof_name := extract_prof_name_from_post post
  (comments.foldl
    (fun (st : Option String × List RedditChunk) c =>
      let r := process_comment pol courses professors post.url course_code st.1 c
      (r.1, st.2 ++ r.2))
    (prof_name, [])).2

/-- `scrape_and_store(courses, professors)`: the pure content of the Reddit
pipeline — each post with its comment list is an input (fetched by the
excluded `praw` collaborator), `processed` is the set of already-stored
source URLs, and the result is the list of chunks inserted. -/
def scrape_and_store (pol : String → Rat) (courses professors processed : List String)
    (posts : List (RedditPost × List RedditComment)) : List RedditChunk :=
  posts.foldl (fun acc pc => acc ++ process_post pol courses professors processed pc.1 pc.2) []

/-! ## rmp_scraper.py : professor collection and change detection -/

/-- `is_valid_comment(comment)` of `rmp_scraper.py`. -/
def is_valid_comment (comment : String) : Bool :=
  if comment = "" || comment.length < 10 then false else true

/-- Worker for `collapseWS`: `inWS` records whether the previous character
was whitespace (its single replacement space already emitted). -/
def collapseWSAux : Bool → List Char → List Char
  | _, [] => []
  | inWS, c :: rest =>
    if isPySpace c then
      if inWS then collapseWSAux true rest
      else ' ' :: collapseWSAux true rest
    else c :: collapseWSAux false rest

/-- `re.sub(r"\s+", " ", s)`: collapse each whitespace run to one space. -/
def collapseWS (l : List Char) : List Char := collapseWSAux false l

/-- `normalize_comment(text)` of `rmp_scraper.py`. -/
def normalize_comment (text : String) : String :=
  String.mk (collapseWS (pyLower (pyStrip text)).data)

/-- A professor record as assembled from one search-page teacher card (the
dict built inside `scrape_professors`; `overall_rating` is the raw card
text). -/
structure ScrapedProf where
  id : String
  name : String
  department : String
  school : String
  overall_rating : String
  num_ratings : Nat
  url : String
deriving Repr, DecidableEq

/-- The card-collection loop of `scrape_professors`: cards are appended in
encounter order, skipping ids already seen.  The selenium pagination is an
external collaborator; `cards` is the flat sequence of parsed cards it
yields. -/
def collectProfessors (cards : List ScrapedProf) : List ScrapedProf :=
  (cards.foldl
    (fun (st : List String × List ScrapedProf) card =>
      if st.1.contains card.id then st
      else (st.1 ++ [card.id], st.2 ++ [card]))
    ([], [])).2

/-- One assignment `d[prof["name"]] = prof` into the insertion-ordered
dict: overwrite in place when the name is present, else append. -/
def dedupStep (acc : List ScrapedProf) (p : ScrapedProf) : List ScrapedProf :=
  if acc.any (fun q => q.name = p.name) then
    acc.map (fun q => if q.name = p.name then p else q)
  else acc ++ [p]

/-- `{prof["name"]: prof for prof in professors}.values()`: keys keep their
first-occurrence position, values are overwritten, so per name the last
record wins. -/
def dedupByName (l : List ScrapedProf) : List ScrapedProf :=
  l.foldl dedupStep []

/-- The pure content of `scrape_professors`: id-deduplicated collection
followed by the final name-keyed deduplication. -/
def scrape_professors (cards : List ScrapedProf) : List ScrapedProf :=
  dedupByName (collectProfessors cards)

/-- A professor selected for re-scraping: the scraped record with the
`latest_comment_date` watermark attached by `to_scrape_professor`. -/
structure ProfToScrape where
  prof : ScrapedProf
  latest_comment_date : Option String
deriving Repr, DecidableEq

/-- The snapshot dict `previous_professors_dict`: rows of the `professors`
table as `(name, num_ratings, latest_comment_date)`, keyed by name
(last row wins), skipping the `general_prof` sentinel row. -/
def prevProfDict (previous : List (String × Nat × Option String)) :
    List (String × Nat × Option String) :=
  previous.foldl
    (fun d r => if r.1 = "general_prof" then d else dictInsert r.1 r.2 d) []

/-- The per-professor decision of `to_scrape_professor`. -/
def decideProf (d : List (String × Nat × Option String)) (p : ScrapedProf) :
    Option ProfToScrape :=
  match dictFind d p.name with
  | some nd => if p.num_ratings ≠ nd.1 then some ⟨p, nd.2⟩ else none
  | none => some ⟨p, none⟩

/-- `to_scrape_professor(supabase, professors)` of `rmp_scraper.py`: the
snapshot rows are an input (fetched from the store collaborator). -/
def to_scrape_professor (previous : List (String × Nat × Option String))
    (profs : List ScrapedProf) : List ProfToScrape :=
  profs.filterMap (decideProf (prevProfDict previous))

/-! ## rmp_scraper.py : scrape_professor_comments -/

/-- Worker for `removeParenNums`.  The first argument is the scan state:
`none` means outside any candidate group; `some ds` means an opening `(`
and the reversed digits `ds` have been read but not yet resolved.  When the
candidate fails (a non-digit, non-`)` character, or `)` with no digits, or
end of input), the buffered characters are emitted literally and scanning
resumes — exactly the left-to-right non-overlapping scan of `re.sub`. -/
def removeParenNumsAux : Option (List Char) → List Char → List Char
  | none, [] => []
  | none, c :: rest =>
    if c = '(' then removeParenNumsAux (some []) rest
    else c :: removeParenNumsAux none rest
  | some ds, [] => '(' :: ds.reverse
  | some ds, c :: rest =>
    if isDigitCh c then removeParenNumsAux (some (c :: ds)) rest
    else if c = ')' ∧ ds ≠ [] then removeParenNumsAux none rest
    else if c = '(' then ('(' :: ds.reverse) ++ removeParenNumsAux (some []) rest
    else ('(' :: ds.reverse) ++ c :: removeParenNumsAux none rest

/-- `re.sub(r"\(\d+\)", "", s)`: delete every `(digits)` group. -/
def removeParenNums (l : List Char) : List Char := removeParenNumsAux none l

/-- The `all_courses` set built from the dropdown menu lines: strip embedded
`(count)` groups and whitespace, drop empties and the `"all courses"`
header. -/
def allCoursesOf (raw_courses : List String) : List String :=
  raw_courses.foldl
    (fun acc course =>
      let cleaned := pyStrip (String.mk (removeParenNums course.data))
      if cleaned ≠ "" ∧ pyLower cleaned ≠ "all courses" then setInsert cleaned acc
      else acc)
    []

/-- One parsed `li` review block of `ul#ratingsList`.  `hasRating` is the
ad test (`Rating__StyledRating` div present); `date` is the result of the
date-parsing chain (`none` models a parsing exception, which skips the
block); `header` is the `RatingHeader__StyledClass` text (`none` models the
element missing, whose attribute access raises and skips the block);
`quality`/`difficulty` are the parsed rating numbers when their element is
present; `comment` is the `Comments__StyledComments` text. -/
structure ReviewBlock where
  hasRating : Bool
  date : Option String
  header : Option String
  quality : Option Rat
  difficulty : Option Rat
  comment : Option String
  tags : List String
deriving Repr, DecidableEq

/-- The `parsed_review` dict of `scrape_professor_comments`. -/
structure ParsedReview where
  date : String
  quality : Option Rat
  difficulty : Option Rat
  comment : String
  tags : List String
  sentiment_score : Rat
  sentiment_label : String
  course_code : String
deriving Repr, DecidableEq

/-- Mutable state of the review loop: `seen_reviews_set`, the `reviews`
accumulator and the `stop_scraping` flag. -/
structure ReviewState where
  seen : List (String × String)
  reviews : List ParsedReview
  stop : Bool
deriving Repr, DecidableEq

/-- Loop-invariant context of the review loop.  `courseVar` is the leftover
value of the loop variable `course` from the `for course in raw_courses:`
cleanup loop — `raw_courses[-1]`, or `none` when `raw_courses` is empty (in
which case reading it raises `NameError` and the review is skipped). -/
structure ReviewCtx where
  watermark : Option String
  mappings : List (String × Option (List String))
  existing : List (String × String)
  overall_rating : Option Rat
  level_of_difficulty : Option Rat
  courseVar : Option String
  polarity : String → Rat

/-- Processing of one review block after the date was parsed and the
watermark check passed. -/
def processBlockRest (ctx : ReviewCtx) (st : ReviewState) (date : String)
    (b : ReviewBlock) : ReviewState :=
  match b.header with
  | none => st
  | some hdr =>
    match dictFind ctx.mappings hdr with
    | none => st
    | some mapped =>
      let quality := match b.quality with
        | some q => some q
        | none => ctx.overall_rating
      let difficulty := match b.difficulty with
        | some d => some d
        | none => ctx.level_of_difficulty
      match b.comment with
      | none => st
      | some comment =>
        if !is_valid_comment comment then st else
        let sp := detect_sentiment ctx.polarity comment
        let review_tags := b.tags
        let course_codes := match mapped with
          | none => ["general_course"]
          | some l => l
        let normalized := normalize_comment comment
        if ctx.existing.contains (normalized, date) ||
            st.seen.contains (normalized, date) then st
        else
          let st := { st with seen := st.seen ++ [(normalized, date)] }
          match ctx.courseVar with
          | none => st
          | some course =>
            let _ := course_codes
            { st with reviews := st.reviews ++
                [{ date := date, quality := quality, difficulty := difficulty,
                   comment := normalized, tags := review_tags,
                   sentiment_score := sp.1, sentiment_label := sp.2,
                   course_code := course }] }

/-- One iteration of the `for block in review_items:` loop: ad check, date
parse, then the high-watermark check (`stop_scraping = True; break` when the
date is not newer than the watermark), then the rest of the block. -/
def processBlock (ctx : ReviewCtx) (st : ReviewState) (b : ReviewBlock) :
    ReviewState :=
  if !b.hasRating then st else
  match b.date with
  | none => st
  | some date =>
    match ctx.watermark with
    | some w =>
      if pyStrLe date w then { st with stop := true }
      else processBlockRest ctx st date b
    | none => processBlockRest ctx st date b

/-- The `for block in review_items:` loop, honouring the `break` issued by
the watermark check. -/
def processBlocks (ctx : ReviewCtx) (st : ReviewState) :
    List ReviewBlock → ReviewState
  | [] => st
  | b :: rest =>
    let st2 := processBlock ctx st b
    if st2.stop then st2 else processBlocks ctx st2 rest

/-- The outer `while True:` pagination loop.  The source parses `soup` once
before the loop, so every iteration re-reads the same block list; `clicks`
is how many times the Load More button is still clickable. -/
def commentLoop (ctx : ReviewCtx) (blocks : List ReviewBlock)
    (hasReviews : Bool) : Nat → ReviewState → ReviewState
  | clicks, st =>
    if !hasReviews then st
    else
      let st2 := processBlocks ctx st blocks
      if st2.stop then st2
      else
        match clicks with
        | 0 => st2
        | n + 1 => commentLoop ctx blocks hasReviews n st2

/-- The `updated_prof` dict upserted into the `professors` table. -/
structure UpdatedProf where
  id : String
  name : String
  overall_rating : Option Rat
  percent_retake : Option Rat
  level_of_difficulty : Option Rat
  professor_tags : List String
  latest_comment_date : Option String
  num_ratings : Nat
  url : String
deriving Repr, DecidableEq

/-- The `comment_data` dict inserted into `rag_chunks` by the RMP path. -/
structure ChunkData where
  text : String
  source : String
  course_code : String
  professor_name : String
  source_url : String
  tags : List String
  created_at : String
  quality_rating : Option Rat
  sentiment_score : Rat
  sentiment_label : String
  difficulty_rating : Option Rat
deriving Repr, DecidableEq

/-- The professor object handed to `scrape_professor_comments`: a
`to_scrape_professor` output flattened. -/
structure RMPProf where
  id : String
  name : String
  url : String
  num_ratings : Nat
  latest_comment_date : Option String
deriving Repr, DecidableEq

/-- The parsed page content `scrape_professor_comments` reads (fetched by
the excluded selenium collaborator): header rating texts after `safe_float`,
top tags, the dropdown lines of the course menu, the parsed review blocks,
how often Load More is clickable, and the professor's previously stored
`(text, created_at)` rows. -/
structure ScrapePageInput where
  rating_value : Option Rat
  feedback_numbers : List (Option Rat)
  top_tags : List String
  raw_courses : List String
  blocks : List ReviewBlock
  load_more_clicks : Nat
  existing_rows : List (String × String)

/-- The decisions and records `scrape_professor_comments` produces. -/
structure ScrapeResult where
  reviews : List ParsedReview
  updated_prof : UpdatedProf
  chunks : List ChunkData
deriving Repr, DecidableEq

/-- `scrape_professor_comments(supabase, prof, valid_courses)`: the pure
content of the professor-review scrape path.  `Except.error ()` is the
`TypeError` escaping from `clean_and_map_course_codes`. -/
def scrape_professor_comments (pol : String → Rat) (prof : RMPProf)
    (valid_courses : List String) (page : ScrapePageInput) :
    Except Unit ScrapeResult :=
  let has_reviews := prof.num_ratings > 0
  let overall_rating := if has_reviews then page.rating_value else none
  let percent_take_again :=
    if has_reviews then
      (if page.feedback_numbers.length > 0 then page.feedback_numbers.getD 0 none else none)
    else none
  let level_of_difficulty :=
    if has_reviews then
      (if page.feedback_numbers.length > 1 then page.feedback_numbers.getD 1 none else none)
    else none
  let all_courses := allCoursesOf page.raw_courses
  match clean_and_map_course_codes all_courses valid_courses with
  | Except.error e => Except.error e
  | Except.ok course_code_mappings =>
    let ctx : ReviewCtx :=
      { watermark := prof.latest_comment_date,
        mappings := course_code_mappings,
        existing := page.existing_rows.map (fun r => (pyStrip r.1, r.2)),
        overall_rating := overall_rating,
        level_of_difficulty := level_of_difficulty,
        courseVar := page.raw_courses.getLast?,
        polarity := pol }
    let st := commentLoop ctx page.blocks has_reviews page.load_more_clicks ⟨[], [], false⟩
    let date := match st.reviews with
      | [] => none
      | r :: _ => some r.date
    let updated_prof : UpdatedProf :=
      { id := prof.id, name := prof.name, overall_rating := overall_rating,
        percent_retake := percent_take_again,
        level_of_difficulty := level_of_difficulty,
        professor_tags := page.top_tags, latest_comment_date := date,
        num_ratings := prof.num_ratings, url := prof.url }
    let chunks : List ChunkData := st.reviews.map (fun r =>
      { text := r.comment, source := "ratemyprofessors",
        course_code := r.course_code, professor_name := prof.name,
        source_url := prof.url, tags := r.tags, created_at := r.date,
        quality_rating := r.quality, sentiment_score := r.sentiment_score,
        sentiment_label := r.sentiment_label,
        difficulty_rating := r.difficulty })
    Except.ok { reviews := st.reviews, updated_prof := updated_prof, chunks := chunks }

/-! ## course-scraper.py : upsert_course_data_to_supabase -/

/-- One scraped catalog row of the course DataFrame (the freshly scraped
record has no `average_*` fields). -/
structure CourseRow where
  course_code : String
  course_name : Option String
  course_description : Option String
  offering_faculty : Option String
  learning_hours : Option String
  course_learning_outcomes : List String
  course_requirements : Option String
  course_equivalencies : Option String
  course_units : Option String
deriving Repr, DecidableEq

/-- One element of `upsert_payload`. -/
structure CoursePayload where
  course_code : String
  course_name : Option String
  course_description : Option String
  offering_faculty : Option String
  learning_hours : Option String
  course_learning_outcomes : List String
  course_requirements : Option String
  course_equivalencies : Option String
  course_units : Option String
  average_gpa : Option Rat
  average_enrollment : Option Rat
deriving Repr, DecidableEq

/-- The `existing_courses` dict: snapshot rows keyed by course code
(last row wins). -/
def existingDict (rows : List (String × Option Rat × Option Rat)) :
    List (String × Option Rat × Option Rat) :=
  rows.foldl (fun d r => dictInsert r.1 r.2 d) []

/-- One payload element: protected `average_*` fields are copied from the
snapshot when the course exists there, else set to `None`. -/
def buildUpsertRow (existing : List (String × Option Rat × Option Rat))
    (row : CourseRow) : CoursePayload :=
  let avg := match dictFind existing row.course_code with
    | some ge => ge
    | none => (none, none)
  { course_code := row.course_code, course_name := row.course_name,
    course_description := row.course_description,
    offering_faculty := row.offering_faculty,
    learning_hours := row.learning_hours,
    course_learning_outcomes := row.course_learning_outcomes,
    course_requirements := row.course_requirements,
    course_equivalencies := row.course_equivalencies,
    course_units := row.course_units,
    average_gpa := avg.1, average_enrollment := avg.2 }

/-- One loop iteration of `upsert_course_data_to_supabase`: append the
payload row, and flush when the batch is full or the row's index label
equals `len(course_data) - 1`. -/
def upsertStep (existing : List (String × Option Rat × Option Rat))
    (batch_size n : Nat)
    (st : List CoursePayload × List (List CoursePayload))
    (ir : Nat × CourseRow) : List CoursePayload × List (List CoursePayload) :=
  let payload := st.1 ++ [buildUpsertRow existing ir.2]
  if payload.length = batch_size ∨ ir.1 = n - 1 then ([], st.2 ++ [payload])
  else (payload, st.2)

/-- `upsert_course_data_to_supabase(supabase, course_data, batch_size)`.
`course_data` is the DataFrame as `iterrows()` yields it: `(index, row)`
pairs — after `drop_duplicates` the index labels can have gaps.  The result
is the list of batches actually sent to the store. -/
def upsert_course_data_to_supabase
    (existing_rows : List (String × Option Rat × Option Rat))
    (course_data : List (Nat × CourseRow)) (batch_size : Nat) :
    List (List CoursePayload) :=
  let existing := existingDict existing_rows
  let n := course_data.length
  (course_data.foldl (upsertStep existing batch_size n) ([], [])).2

/-! ## Concrete scenario inputs -/

/-- A constant polarity model: the sentiment collaborator is irrelevant to
the claims under test. -/
def polZero : String → Rat := fun _ => 0

/-- A professor with no stored watermark and two ratings. -/
def c1Prof : RMPProf :=
  { id := "p1", name := "Jane Doe", url := "u1", num_ratings := 2,
    latest_comment_date := none }

/-- One genuine review block: header `CISC 121`, a valid comment, quality
element present. -/
def c1Block : ReviewBlock :=
  { hasRating := true, date := some "2025-02-03", header := some "CISC 121",
    quality := some 5, difficulty := none,
    comment := some "amazing course honestly", tags := [] }

/-- A professor page whose course dropdown shows the `All courses` header
and one course labelled with its review count. -/
def c1Page : ScrapePageInput :=
  { rating_value := none, feedback_numbers := [], top_tags := [],
    raw_courses := ["All courses", "CISC 121 (5)"],
    blocks := [c1Block], load_more_clicks := 0, existing_rows := [] }

/-- Professor with a stored high-watermark. -/
def c6Prof : RMPProf :=
  { id := "p1", name := "Jane Doe", url := "u1", num_ratings := 2,
    latest_comment_date := some "2024-06-01" }

/-- A review newer than the watermark. -/
def c6Good : ReviewBlock :=
  { hasRating := true, date := some "2025-02-03", header := some "CISC 121",
    quality := some 5, difficulty := none,
    comment := some "amazing course honestly", tags := [] }

/-- A review at/below the watermark: reaching it must stop the crawl. -/
def c6Stop : ReviewBlock :=
  { hasRating := true, date := some "2024-01-05", header := some "CISC 121",
    quality := none, difficulty := none,
    comment := some "old comment here okay", tags := [] }

/-- A review after the stopping one; it must never be examined. -/
def c6After : ReviewBlock :=
  { hasRating := true, date := some "2025-03-01", header := some "CISC 121",
    quality := none, difficulty := none,
    comment := some "should never be seen", tags := [] }

/-- Page for the watermark scenario (dropdown without a count suffix, so the
stale-variable value coincides with the course name here). -/
def c6Page : ScrapePageInput :=
  { rating_value := none, feedback_numbers := [], top_tags := [],
    raw_courses := ["CISC 121"],
    blocks := [c6Good, c6Stop, c6After], load_more_clicks := 0,
    existing_rows := [] }

/-- The result `scrape_professor_comments` computes on `c6Page`: exactly the
one review newer than the watermark. -/
def c6Res : ScrapeResult :=
  { reviews := [{ date := "2025-02-03", quality := some 5, difficulty := none,
                  comment := "amazing course honestly", tags := [],
                  sentiment_score := 0, sentiment_label := "neutral",
                  course_code := "CISC 121" }],
    updated_prof := { id := "p1", name := "Jane Doe", overall_rating := none,
                      percent_retake := none, level_of_difficulty := none,
                      professor_tags := [],
                      latest_comment_date := some "2025-02-03",
                      num_ratings := 2, url := "u1" },
    chunks := [{ text := "amazing course honestly",
                 source := "ratemyprofessors", course_code := "CISC 121",
                 professor_name := "Jane Doe", source_url := "u1", tags := [],
                 created_at := "2025-02-03", quality_rating := some 5,
                 sentiment_score := 0, sentiment_label := "neutral",
                 difficulty_rating := none }] }

/-- The loop context `scrape_professor_comments` builds for `c6Page`. -/
def c6Ctx : ReviewCtx :=
  { watermark := some "2024-06-01",
    mappings := [("CISC 121", some ["CISC 121"])], existing := [],
    overall_rating := none, level_of_difficulty := none,
    courseVar := some "CISC 121", polarity := polZero }

/-- Fresh review-loop state. -/
def st0 : ReviewState := { seen := [], reviews := [], stop := false }

/-- A post of interest that mentions only general course keywords: no course
code and no professor name are extractable from it. -/
def c7Post : RedditPost :=
  { title := "Thoughts on courses?", selftext := "Need advice please everyone.",
    url := "r1", is_self := true, over_18 := false, locked := false,
    score := 5, num_comments := 1 }

/-- A comment of interest naming a professor but no course code. -/
def c7Comment : RedditComment :=
  { body := "Dr. John Smith was great, take his class!", score := 3,
    created_date := "2025-01-02" }

/-- The end-to-end example sentence of the specification. -/
def c9Text : String :=
  "This course (CISC 124) was NOT easy but the prof, Dr. John Smith, was great"

/-- The example sentence wrapped as a post (empty selftext). -/
def c9Post : RedditPost :=
  { title := c9Text, selftext := "", url := "r9", is_self := true,
    over_18 := false, locked := false, score := 5, num_comments := 1 }

/-- A scraped catalog row. -/
def c4RowA : CourseRow :=
  { course_code := "CISC 121", course_name := some "Intro",
    course_description := none, offering_faculty := none,
    learning_hours := none, course_learning_outcomes := [],
    course_requirements := none, course_equivalencies := none,
    course_units := some "3.00" }

/-- A second scraped catalog row. -/
def c4RowB : CourseRow := { c4RowA with course_code := "MATH 110" }

/-! ## Claim theorems -/

/-- Claim C1 (code bug).  On a professor page whose dropdown lines are
`["All courses", "CISC 121 (5)"]` and whose single review has the header
`CISC 121`, the reconciler maps the header to exactly `["CISC 121"]`, yet
the emitted chunk carries `course_code = "CISC 121 (5)"` — the leftover
value of the dropdown-cleanup loop variable `course` — which is neither the
mapped canonical code nor the `general_course` sentinel.  The computed
`course_codes` (with its sentinel fallback) is dead: `parsed_review` stores
the stale variable instead. -/
theorem rmp_chunk_course_code_stale_variable :
    (scrape_professor_comments polZero c1Prof ["CISC 121"] c1Page).map
        (fun r => r.chunks.map (fun c => c.course_code)) =
      Except.ok ["CISC 121 (5)"] ∧
    clean_and_map_course_codes (allCoursesOf c1Page.raw_courses) ["CISC 121"] =
      Except.ok [("CISC 121", some ["CISC 121"])] ∧
    ("CISC 121 (5)" : String) ≠ "CISC 121" ∧
    ("CISC 121 (5)" : String) ≠ "general_course" := by
  exact ⟨rfl, rfl, by decide, by decide⟩

/-- Claim C3 (counterexample).  With canonical set
`{"CISC 121", "CISC 124"}` and `"CISC121124"` as the only raw input, the
derivation pass validates only the first 3-digit chunk (`121`) of the digit
run, so the mapping pass finds a single candidate and maps the concatenated
label to `["CISC 121"]` — a guess, not `none` as the claim states. -/
theorem reconciler_concat_label_is_guessed :
    clean_and_map_course_codes ["CISC121124"] ["CISC 121", "CISC 124"] =
      Except.ok [("CISC121124", some ["CISC 121"])] ∧
    (some ["CISC 121"] : Option (List String)) ≠ none := by
  exact ⟨rfl, by decide⟩

/-- Claim C3 (amended).  The two-candidate → `none` behaviour appears only
when the raw input set also validates the number `124` in the derivation
pass: with raw inputs `{"CISC121124", "CISC124"}` the mapping pass collects
both `CISC 121` and `CISC 124` for the concatenated label and maps it to
`none`, while `"CISC124"` itself maps by exact match. -/
theorem reconciler_concat_label_ambiguous_with_validator :
    clean_and_map_course_codes ["CISC121124", "CISC124"]
        ["CISC 121", "CISC 124"] =
      Except.ok [("CISC121124", none), ("CISC124", some ["CISC 124"])] := by
  rfl

/-- Claim C4 (code bug).  After `drop_duplicates` the DataFrame keeps its
original index labels, so when a duplicate was dropped the final row's label
no longer equals `len-1`: with rows at index labels 0 and 2 (a duplicate at
label 1 was dropped) and the default batch size 50, the flush condition
`len(payload) == batch_size or index == len(course_data) - 1` never fires
and NO write at all is emitted — both scraped rows are left unwritten. -/
theorem upsert_final_partial_batch_not_flushed :
    upsert_course_data_to_supabase [] [(0, c4RowA), (2, c4RowB)] 50 = [] := by
  decide

/-- Claim C7 (counterexample).  A post of interest with no extractable
course code, and a comment of interest whose body names `Dr. John Smith`
but no course code: the pipeline stores nothing for it (the
`temp_course_code` guard `continue`s before the `general_course` branch can
run), refuting the claim that such a comment is stored with the sentinel
course code. -/
theorem reddit_prof_only_comment_not_stored :
    scrape_and_store polZero ["CISC 124"] ["Dr. John Smith"] []
        [(c7Post, [c7Comment])] = [] ∧
    is_post_of_interest c7Post = true ∧
    is_comment_of_interest c7Comment = true ∧
    extract_course_code_from_post c7Post = none ∧
    extract_course_code_from_comment c7Comment = none ∧
    extract_prof_name_from_comment c7Comment = some "Dr. John Smith" := by
  refine ⟨?_, ?_, ?_, ?_, ?_, ?_⟩ <;> decide

/-- Claim C8 (code bug).  On a purely-letters raw input (`"ANAT"`), a
purely-digits input whose number was never validated (`"999"`), and an
otherwise-unparseable input (`"--"`), the mapping pass sets `matches = None`
and then evaluates `len(matches)`, raising `TypeError`: the function is not
total and never returns the claimed `none` mapping on those branches. -/
theorem reconciler_type_error_on_unmappable :
    clean_and_map_course_codes ["ANAT"] ["ANAT 100"] = Except.error () ∧
    clean_and_map_course_codes ["999"] ["ANAT 100"] = Except.error () ∧
    clean_and_map_course_codes ["--"] ["ANAT 100"] = Except.error () := by
  exact ⟨rfl, rfl, rfl⟩

/-- Claim C9 (counterexample).  On the end-to-end example sentence the
professor-review keyword list (`professor`, `lecturer`, `teaching`,
`instructor`, `teaches`, `taught`) has no hit — the text only contains the
bare word `prof`, which is not in the list — so `detect_tags` does NOT
include `professor_review`, refuting that conjunct of the claim. -/
theorem detect_tags_no_professor_review_on_example :
    ("professor_review" ∈ detect_tags c9Text) = False := by
  decide

/-- Claim C9 (amended).  On the end-to-end example sentence `detect_tags`
returns the empty tag list — `easy` is indeed suppressed by the negation
pre-check, and no other keyword (in particular none of the professor-review
keywords) occurs — while the course-code extractor yields `CISC 124` and
the professor-name extractor yields `Dr. John Smith` as claimed. -/
theorem end_to_end_example_extraction :
    detect_tags c9Text = [] ∧
    extract_course_code_from_post c9Post = some "CISC 124" ∧
    extract_prof_name_from_post c9Post = some "Dr. John Smith" := by
  refine ⟨?_, ?_, ?_⟩ <;> decide

/-! ## Quantified claim proofs -/

theorem upsert_fold_mem {P : CoursePayload → Prop}
    (existing : List (String × Option Rat × Option Rat)) (bs n : Nat)
    (hbuild : ∀ row, P (buildUpsertRow existing row)) :
    ∀ (data : List (Nat × CourseRow))
      (acc : List CoursePayload × List (List CoursePayload)),
      (∀ p ∈ acc.1, P p) → (∀ b ∈ acc.2, ∀ p ∈ b, P p) →
      ∀ b ∈ (data.foldl (upsertStep existing bs n) acc).2, ∀ p ∈ b, P p := by
  intro data
  induction data with
  | nil => intro acc _ h2; simpa using h2
  | cons ir rest ih =>
    intro acc h1 h2
    rw [List.foldl_cons]
    apply ih
    · intro p hp
      unfold upsertStep at hp
      by_cases hc : (acc.1 ++ [buildUpsertRow existing ir.2]).length = bs ∨ ir.1 = n - 1
      · rw [if_pos hc] at hp
        simp at hp
      · rw [if_neg hc] at hp
        rcases List.mem_append.mp hp with h | h
        · exact h1 p h
        · simp only [List.mem_singleton] at h
          subst h
          exact hbuild _
    · intro b hb p hp
      unfold upsertStep at hb
      by_cases hc : (acc.1 ++ [buildUpsertRow existing ir.2]).length = bs ∨ ir.1 = n - 1
      · rw [if_pos hc] at hb
        rcases List.mem_append.mp hb with h | h
        · exact h2 b h p hp
        · simp only [List.mem_singleton] at h
          subst h
          rcases List.mem_append.mp hp with h | h
          · exact h1 p h
          · simp only [List.mem_singleton] at h
            subst h
            exact hbuild _
      · rw [if_neg hc] at hb
        exact h2 b hb p hp

theorem buildUpsertRow_protected (existing : List (String × Option Rat × Option Rat))
    (row : CourseRow) :
    (dictFind existing (buildUpsertRow existing row).course_code = none →
       (buildUpsertRow existing row).average_gpa = none ∧
       (buildUpsertRow existing row).average_enrollment = none) ∧
    (∀ g e, dictFind existing (buildUpsertRow existing row).course_code = some (g, e) →
       (buildUpsertRow existing row).average_gpa = g ∧
       (buildUpsertRow existing row).average_enrollment = e) := by
  constructor
  · intro hnone
    simp only [buildUpsertRow] at hnone ⊢
    rw [hnone]
    exact ⟨rfl, rfl⟩
  · intro g e hsome
    simp only [buildUpsertRow] at hsome ⊢
    rw [hsome]
    exact ⟨rfl, rfl⟩

/-- Claim C2 (confirmed).  Every payload entry any batch of
`upsert_course_data_to_supabase` sends carries the snapshot's
`average_gpa`/`average_enrollment` values unchanged when its course code is
in the snapshot dict, and `none` for both when it is not. -/
theorem upsert_preserves_protected_fields :
    ∀ (rows : List (String × Option Rat × Option Rat))
      (data : List (Nat × CourseRow)) (bs : Nat)
      (b : List CoursePayload) (p : CoursePayload),
      b ∈ upsert_course_data_to_supabase rows data bs → p ∈ b →
      (dictFind (existingDict rows) p.course_code = none →
         p.average_gpa = none ∧ p.average_enrollment = none) ∧
      (∀ g e, dictFind (existingDict rows) p.course_code = some (g, e) →
         p.average_gpa = g ∧ p.average_enrollment = e) := by
  intro rows data bs b p hb hp
  have hP := upsert_fold_mem (P := fun q =>
      (dictFind (existingDict rows) q.course_code = none →
         q.average_gpa = none ∧ q.average_enrollment = none) ∧
      (∀ g e, dictFind (existingDict rows) q.course_code = some (g, e) →
         q.average_gpa = g ∧ q.average_enrollment = e))
    (existingDict rows) bs data.length
    (fun row => buildUpsertRow_protected (existingDict rows) row)
    data ([], []) (by simp) (by simp) b ?memgoal p hp
  · exact hP
  · simpa [upsert_course_data_to_supabase] using hb

/-- Snapshot with one stored course owning analytics values. -/
def c2Rows : List (String × Option Rat × Option Rat) :=
  [("CISC 121", some (3.4 : Rat), some 150)]

/-- Fresh catalog scrape: the stored course re-scraped plus a new course,
with contiguous index labels. -/
def c2Data : List (Nat × CourseRow) := [(0, c4RowA), (1, c4RowB)]

/-- The payload entry built for the existing course. -/
def c2PayloadA : CoursePayload := buildUpsertRow (existingDict c2Rows) c4RowA

/-- The payload entry built for the new course. -/
def c2PayloadB : CoursePayload := buildUpsertRow (existingDict c2Rows) c4RowB

/-- Claim C2 witness: re-scraping an existing course with stored
`average_gpa = 3.4` yields an update payload with `average_gpa = 3.4`
unchanged, and the new course's payload has both fields null. -/
theorem upsert_preserves_protected_fields_witness :
    c2PayloadA.average_gpa = some (3.4 : Rat) ∧
    c2PayloadA.average_enrollment = some (150 : Rat) ∧
    c2PayloadB.average_gpa = none ∧ c2PayloadB.average_enrollment = none := by
  have hres : upsert_course_data_to_supabase c2Rows c2Data 50 =
      [[c2PayloadA, c2PayloadB]] := by rfl
  have hb : [c2PayloadA, c2PayloadB] ∈ upsert_course_data_to_supabase c2Rows c2Data 50 := by
    rw [hres]; exact List.mem_singleton_self _
  have hA := upsert_preserves_protected_fields c2Rows c2Data 50
    [c2PayloadA, c2PayloadB] c2PayloadA hb (List.mem_cons_self _ _)
  have hB := upsert_preserves_protected_fields c2Rows c2Data 50
    [c2PayloadA, c2PayloadB] c2PayloadB hb (by simp)
  have hA2 := hA.2 (some (3.4 : Rat)) (some (150 : Rat)) (by rfl)
  have hB1 := hB.1 (by rfl)
  exact ⟨hA2.1, hA2.2, hB1.1, hB1.2⟩

/-- Claim C5 (confirmed).  A scraped professor is selected by
`to_scrape_professor` exactly when absent from the snapshot dict (then with
a null watermark) or present with a different `num_ratings` (then with the
stored watermark); a professor whose stored and observed `num_ratings`
agree is never selected. -/
theorem to_scrape_professor_change_detection :
    ∀ (previous : List (String × Nat × Option String))
      (profs : List ScrapedProf) (p : ScrapedProf), p ∈ profs →
      (dictFind (prevProfDict previous) p.name = none →
         (⟨p, none⟩ : ProfToScrape) ∈ to_scrape_professor previous profs) ∧
      (∀ n d, dictFind (prevProfDict previous) p.name = some (n, d) →
         p.num_ratings ≠ n →
         (⟨p, d⟩ : ProfToScrape) ∈ to_scrape_professor previous profs) ∧
      (∀ n d, dictFind (prevProfDict previous) p.name = some (n, d) →
         p.num_ratings = n → ∀ w,
         (⟨p, w⟩ : ProfToScrape) ∉ to_scrape_professor previous profs) := by
  intro previous profs p hp
  refine ⟨?_, ?_, ?_⟩
  · intro hnone
    exact List.mem_filterMap.mpr ⟨p, hp, by simp [decideProf, hnone]⟩
  · intro n d hsome hne
    refine List.mem_filterMap.mpr ⟨p, hp, ?_⟩
    simp [decideProf, hsome, hne]
  · intro n d hsome heq w hmem
    obtain ⟨q, _, hdq⟩ := List.mem_filterMap.mp hmem
    cases hfind : dictFind (prevProfDict previous) q.name with
    | none =>
      simp only [decideProf, hfind, Option.some.injEq, ProfToScrape.mk.injEq] at hdq
      rw [hdq.1] at hfind
      rw [hfind] at hsome
      exact Option.noConfusion hsome
    | some nd =>
      simp only [decideProf, hfind] at hdq
      by_cases hne2 : q.num_ratings ≠ nd.1
      · rw [if_pos hne2] at hdq
        simp only [Option.some.injEq, ProfToScrape.mk.injEq] at hdq
        rw [hdq.1] at hfind
        rw [hfind] at hsome
        have hnd : nd = (n, d) := Option.some.inj hsome
        apply hne2
        rw [hdq.1, hnd]
        exact heq
      · rw [if_neg hne2] at hdq
        exact Option.noConfusion hdq

/-- Snapshot rows of the professors table. -/
def c5Prev : List (String × Nat × Option String) :=
  [("Smith", 10, some "2024-05-01")]

/-- Scraped professor matching the stored rating count. -/
def c5P10 : ScrapedProf :=
  { id := "s1", name := "Smith", department := "CS", school := "Q",
    overall_rating := "4.5", num_ratings := 10, url := "u-s1" }

/-- Scraped professor with a changed rating count. -/
def c5P12 : ScrapedProf := { c5P10 with id := "s2", num_ratings := 12, url := "u-s2" }

/-- Scraped professor absent from the snapshot. -/
def c5New : ScrapedProf :=
  { c5P10 with id := "n1", name := "Newcomer", num_ratings := 3, url := "u-n1" }

/-- Claim C5 witness: stored 10 / observed 10 is excluded, observed 12 is
included carrying the stored watermark, and the absent professor is
included with a null watermark. -/
theorem to_scrape_professor_change_detection_witness :
    (⟨c5New, none⟩ : ProfToScrape) ∈ to_scrape_professor c5Prev [c5P10, c5P12, c5New] ∧
    (⟨c5P12, some "2024-05-01"⟩ : ProfToScrape) ∈ to_scrape_professor c5Prev [c5P10, c5P12, c5New] ∧
    (⟨c5P10, some "2024-05-01"⟩ : ProfToScrape) ∉ to_scrape_professor c5Prev [c5P10, c5P12, c5New] := by
  refine ⟨?_, ?_, ?_⟩
  · exact (to_scrape_professor_change_detection c5Prev _ c5New (by simp)).1 (by rfl)
  · exact (to_scrape_professor_change_detection c5Prev _ c5P12 (by simp)).2.1
      10 (some "2024-05-01") (by rfl) (by decide)
  · exact (to_scrape_professor_change_detection c5Prev _ c5P10 (by simp)).2.2
      10 (some "2024-05-01") (by rfl) (by decide) (some "2024-05-01")

theorem process_comment_no_course (pol : String → Rat)
    (courses professors : List String) (url : String) (prof0 : Option String)
    (c : RedditComment) (h : extract_course_code_from_comment c = none) :
    (process_comment pol courses professors url none prof0 c).2 = [] := by
  unfold process_comment
  split
  · rfl
  · simp [h]

theorem process_post_fold_no_chunks (pol : String → Rat)
    (courses professors : List String) (url : String) :
    ∀ (comments : List RedditComment) (p0 : Option String)
      (acc : List RedditChunk),
      (∀ c ∈ comments, extract_course_code_from_comment c = none) →
      (comments.foldl
        (fun (st : Option String × List RedditChunk) c =>
          let r := process_comment pol courses professors url none st.1 c
          (r.1, st.2 ++ r.2))
        (p0, acc)).2 = acc := by
  intro comments
  induction comments with
  | nil => intro p0 acc _; rfl
  | cons c rest ih =>
    intro p0 acc h
    rw [List.foldl_cons]
    have hc := process_comment_no_course pol courses professors url p0 c (h c (by simp))
    dsimp only
    rw [hc, List.append_nil]
    exact ih _ _ (fun x hx => h x (by simp [hx]))

/-- Claim C7 (amended).  In the Reddit pipeline a comment of interest for
which no course code resolves — neither from the post nor from the comment
— is dropped entirely, whether or not a professor name is resolvable: the
`continue` on `temp_course_code` runs before the `general_course` branch,
which is therefore unreachable.  Consequently a whole post none of whose
comments resolves a course code stores nothing. -/
theorem reddit_comment_without_course_dropped :
    (∀ (pol : String → Rat) (courses professors : List String) (url : String)
       (prof0 : Option String) (c : RedditComment),
       extract_course_code_from_comment c = none →
       (process_comment pol courses professors url none prof0 c).2 = []) ∧
    (∀ (pol : String → Rat) (courses professors processed : List String)
       (post : RedditPost) (comments : List RedditComment),
       extract_course_code_from_post post = none →
       (∀ c ∈ comments, extract_course_code_from_comment c = none) →
       process_post pol courses professors processed post comments = []) := by
  constructor
  · exact process_comment_no_course
  · intro pol courses professors processed post comments hpost hcomments
    unfold process_post
    split
    · rfl
    · split
      · rfl
      · rw [hpost]
        exact process_post_fold_no_chunks pol courses professors post.url
          comments _ [] hcomments

/-- Claim C7 witness: the amended drop behaviour at the concrete
post/comment pair whose comment names a professor but no course. -/
theorem reddit_comment_without_course_dropped_witness :
    process_post polZero ["CISC 124"] ["Dr. John Smith"] [] c7Post [c7Comment] = [] := by
  exact reddit_comment_without_course_dropped.2 polZero ["CISC 124"]
    ["Dr. John Smith"] [] c7Post [c7Comment] (by rfl)
    (by intro c hc; simp only [List.mem_singleton] at hc; rw [hc]; rfl)

/-- Does this block trigger the watermark stop against watermark `w`?
(Ad blocks and blocks whose date fails to parse do not reach the check.) -/
def stopsBlock (w : String) (b : ReviewBlock) : Bool :=
  b.hasRating && (match b.date with
    | some d => pyStrLe d w
    | none => false)

theorem processBlockRest_stop (ctx : ReviewCtx) (st : ReviewState)
    (date : String) (b : ReviewBlock) :
    (processBlockRest ctx st date b).stop = st.stop := by
  unfold processBlockRest
  repeat' split
  all_goals try rfl
  all_goals dsimp only
  all_goals split
  all_goals rfl

theorem processBlockRest_reviews_mem (ctx : ReviewCtx) (st : ReviewState)
    (date : String) (b : ReviewBlock) (r : ParsedReview)
    (hr : r ∈ (processBlockRest ctx st date b).reviews) :
    r ∈ st.reviews ∨ r.date = date := by
  unfold processBlockRest at hr
  repeat' split at hr
  all_goals try exact Or.inl hr
  all_goals dsimp only at hr
  all_goals split at hr
  all_goals try exact Or.inl hr
  all_goals
    rcases List.mem_append.mp hr with h | h
  all_goals try exact Or.inl h
  all_goals simp only [List.mem_singleton] at h
  all_goals subst h
  all_goals exact Or.inr rfl

theorem processBlock_stop_of_not_stops (ctx : ReviewCtx) (st : ReviewState)
    (b : ReviewBlock) (w : String) (hw : ctx.watermark = some w)
    (hb : stopsBlock w b = false) :
    (processBlock ctx st b).stop = st.stop := by
  unfold processBlock
  cases hr : b.hasRating with
  | false => simp [hr]
  | true =>
    simp only [hr, Bool.not_true, Bool.false_eq_true, if_false]
    cases hd : b.date with
    | none => rfl
    | some d =>
      rw [hw]
      dsimp only
      have hle : pyStrLe d w = false := by
        unfold stopsBlock at hb
        rw [hr, hd] at hb
        simpa using hb
      rw [hle]
      simp only [Bool.false_eq_true, if_false]
      exact processBlockRest_stop ctx st d b

theorem processBlock_eq_stop (ctx : ReviewCtx) (st : ReviewState)
    (b : ReviewBlock) (w : String) (hw : ctx.watermark = some w)
    (hb : stopsBlock w b = true) :
    processBlock ctx st b = { st with stop := true } := by
  unfold processBlock
  unfold stopsBlock at hb
  cases hr : b.hasRating with
  | false => rw [hr] at hb; simp at hb
  | true =>
    simp only [hr, Bool.not_true, Bool.false_eq_true, if_false]
    cases hd : b.date with
    | none => rw [hr, hd] at hb; simp at hb
    | some d =>
      rw [hr, hd] at hb
      simp only [Bool.true_and] at hb
      rw [hw]
      dsimp only
      rw [hb]
      simp

theorem processBlock_reviews_watermark (ctx : ReviewCtx) (st : ReviewState)
    (b : ReviewBlock) (w : String) (hw : ctx.watermark = some w)
    (r : ParsedReview) (hr : r ∈ (processBlock ctx st b).reviews) :
    r ∈ st.reviews ∨ pyStrLe r.date w = false := by
  unfold processBlock at hr
  cases hhr : b.hasRating with
  | false => rw [hhr] at hr; simp at hr; exact Or.inl hr
  | true =>
    rw [hhr] at hr
    simp only [Bool.not_true, Bool.false_eq_true, if_false] at hr
    cases hd : b.date with
    | none => rw [hd] at hr; exact Or.inl hr
    | some d =>
      rw [hd, hw] at hr
      dsimp only at hr
      by_cases hle : pyStrLe d w = true
      · rw [hle] at hr
        simp only [if_true] at hr
        exact Or.inl hr
      · have hle2 : pyStrLe d w = false := Bool.not_eq_true _ ▸ (by simpa using hle)
        rw [hle2] at hr
        simp only [Bool.false_eq_true, if_false] at hr
        rcases processBlockRest_reviews_mem ctx st d b r hr with h | h
        · exact Or.inl h
        · rw [h]
          exact Or.inr hle2

theorem processBlocks_reviews_watermark (ctx : ReviewCtx) (w : String)
    (hw : ctx.watermark = some w) :
    ∀ (blocks : List ReviewBlock) (st : ReviewState) (r : ParsedReview),
      r ∈ (processBlocks ctx st blocks).reviews →
      r ∈ st.reviews ∨ pyStrLe r.date w = false := by
  intro blocks
  induction blocks with
  | nil => intro st r hr; exact Or.inl hr
  | cons b rest ih =>
    intro st r hr
    unfold processBlocks at hr
    dsimp only at hr
    split at hr
    · exact processBlock_reviews_watermark ctx st b w hw r hr
    · rcases ih _ r hr with h | h
      · exact processBlock_reviews_watermark ctx st b w hw r h
      · exact Or.inr h

theorem commentLoop_reviews_watermark (ctx : ReviewCtx) (w : String)
    (hw : ctx.watermark = some w) (blocks : List ReviewBlock)
    (hasReviews : Bool) :
    ∀ (clicks : Nat) (st : ReviewState) (r : ParsedReview),
      r ∈ (commentLoop ctx blocks hasReviews clicks st).reviews →
      r ∈ st.reviews ∨ pyStrLe r.date w = false := by
  intro clicks
  induction clicks with
  | zero =>
    intro st r hr
    unfold commentLoop at hr
    split at hr
    · exact Or.inl hr
    · dsimp only at hr
      split at hr
      · exact processBlocks_reviews_watermark ctx w hw blocks st r hr
      · exact processBlocks_reviews_watermark ctx w hw blocks st r hr
  | succ n ih =>
    intro st r hr
    unfold commentLoop at hr
    split at hr
    · exact Or.inl hr
    · dsimp only at hr
      split at hr
      · exact processBlocks_reviews_watermark ctx w hw blocks st r hr
      · rcases ih _ r hr with h | h
        · exact processBlocks_reviews_watermark ctx w hw blocks st r h
        · exact Or.inr h

theorem processBlocks_stop_at_first (ctx : ReviewCtx) (w : String)
    (hw : ctx.watermark = some w) (b : ReviewBlock) (post : List ReviewBlock)
    (hb : stopsBlock w b = true) :
    ∀ (pre : List ReviewBlock) (st : ReviewState), st.stop = false →
      (∀ x ∈ pre, stopsBlock w x = false) →
      (processBlocks ctx st (pre ++ b :: post)).reviews =
        (processBlocks ctx st pre).reviews := by
  intro pre
  induction pre with
  | nil =>
    intro st hstop _
    simp only [List.nil_append]
    unfold processBlocks
    rw [processBlock_eq_stop ctx st b w hw hb]
    simp
  | cons x pre ih =>
    intro st hstop hpre
    simp only [List.cons_append]
    unfold processBlocks
    have hx : stopsBlock w x = false := hpre x (by simp)
    have hxs : (processBlock ctx st x).stop = st.stop :=
      processBlock_stop_of_not_stops ctx st x w hw hx
    dsimp only
    rw [hxs, hstop]
    simp only [Bool.false_eq_true, if_false]
    exact ih (processBlock ctx st x) (hxs.trans hstop)
      (fun y hy => hpre y (List.mem_cons_of_mem _ hy))

/-- Claim C6 (confirmed).  First conjunct: whenever the watermark is
non-null, every review the professor-review scrape collects has a date
strictly newer than the watermark (`date <= watermark` is false).  Second
conjunct: the block loop stops at the first block that triggers the
watermark check — the blocks after it contribute nothing, whatever they
contain. -/
theorem watermark_bounds_review_scrape :
    (∀ (pol : String → Rat) (prof : RMPProf) (valid_courses : List String)
       (page : ScrapePageInput) (res : ScrapeResult) (w : String),
       prof.latest_comment_date = some w →
       scrape_professor_comments pol prof valid_courses page = Except.ok res →
       ∀ r ∈ res.reviews, pyStrLe r.date w = false) ∧
    (∀ (ctx : ReviewCtx) (st : ReviewState) (w : String)
       (pre : List ReviewBlock) (b : ReviewBlock) (post : List ReviewBlock),
       ctx.watermark = some w → st.stop = false →
       (∀ x ∈ pre, stopsBlock w x = false) → stopsBlock w b = true →
       (processBlocks ctx st (pre ++ b :: post)).reviews =
         (processBlocks ctx st pre).reviews) := by
  constructor
  · intro pol prof valid_courses page res w hw heq
    simp only [scrape_professor_comments] at heq
    split at heq
    · exact absurd heq (by simp)
    · injection heq with h
      intro r hr
      rw [← h] at hr
      dsimp only at hr
      rcases commentLoop_reviews_watermark _ w hw page.blocks
        (decide (prof.num_ratings > 0)) page.load_more_clicks ⟨[], [], false⟩ r hr with hmem | hfalse
      · simp at hmem
      · exact hfalse
  · intro ctx st w pre b post hw hstop hpre hb
    exact processBlocks_stop_at_first ctx w hw b post hb pre st hstop hpre

/-- Claim C6 witness: on the concrete page `c6Page` (one review above the
watermark, then one at the watermark, then one newer that must never be
seen), the collected review's date is strictly newer than the watermark,
and the block processing of stop-block plus trailing block equals the
processing of the empty prefix alone. -/
theorem watermark_bounds_review_scrape_witness :
    pyStrLe "2025-02-03" "2024-06-01" = false ∧
    (processBlocks c6Ctx st0 ([] ++ c6Stop :: [c6After])).reviews =
      (processBlocks c6Ctx st0 []).reviews := by
  constructor
  · exact watermark_bounds_review_scrape.1 polZero c6Prof ["CISC 121"] c6Page
      c6Res "2024-06-01" rfl (by rfl)
      { date := "2025-02-03", quality := some 5, difficulty := none,
        comment := "amazing course honestly", tags := [],
        sentiment_score := 0, sentiment_label := "neutral",
        course_code := "CISC 121" } (by decide)
  · exact watermark_bounds_review_scrape.2 c6Ctx st0 "2024-06-01" [] c6Stop
      [c6After] rfl rfl (fun x hx => absurd hx (List.not_mem_nil x)) (by decide)

/-- The last record with a given name in a professor list. -/
def lastWithName (l : List ScrapedProf) (n : String) : Option ScrapedProf :=
  (l.filter (fun p => p.name = n)).getLast?

theorem find?_map_replace_ne (p : ScrapedProf) (n : String) (hn : p.name ≠ n) :
    ∀ t : List ScrapedProf,
      (t.map (fun q => if q.name = p.name then p else q)).find?
          (fun q => q.name = n) =
        t.find? (fun q => q.name = n) := by
  intro t
  induction t with
  | nil => rfl
  | cons q t ih =>
    simp only [List.map_cons]
    by_cases hq : q.name = p.name
    · rw [if_pos hq]
      rw [List.find?_cons_of_neg _ (by simp [hn]),
          List.find?_cons_of_neg _ (by simp [hq ▸ hn])]
      exact ih
    · rw [if_neg hq]
      by_cases hqn : q.name = n
      · rw [List.find?_cons_of_pos _ (by simp [hqn]),
            List.find?_cons_of_pos _ (by simp [hqn])]
      · rw [List.find?_cons_of_neg _ (by simp [hqn]),
            List.find?_cons_of_neg _ (by simp [hqn])]
        exact ih

theorem find?_map_replace (p : ScrapedProf) (n : String) :
    ∀ acc : List ScrapedProf, acc.any (fun q => q.name = p.name) = true →
      (acc.map (fun q => if q.name = p.name then p else q)).find?
          (fun q => q.name = n) =
        if p.name = n then some p else acc.find? (fun q => q.name = n) := by
  intro acc
  induction acc with
  | nil => intro hany; simp at hany
  | cons q t ih =>
    intro hany
    simp only [List.map_cons]
    by_cases hq : q.name = p.name
    · rw [if_pos hq]
      by_cases hpn : p.name = n
      · rw [if_pos hpn, List.find?_cons_of_pos _ (by simp [hpn])]
      · rw [if_neg hpn,
          List.find?_cons_of_neg _ (by simp [hpn]),
          List.find?_cons_of_neg _ (by simp [hq ▸ hpn])]
        exact find?_map_replace_ne p n hpn t
    · rw [if_neg hq]
      have hany2 : t.any (fun q => q.name = p.name) = true := by
        simp only [List.any_cons] at hany
        rcases Bool.or_eq_true_iff.mp hany with h | h
        · exact absurd (of_decide_eq_true h) hq
        · exact h
      by_cases hqn : q.name = n
      · have hpn : p.name ≠ n := fun hc => hq (hqn ▸ hc ▸ rfl)
        rw [if_neg hpn, List.find?_cons_of_pos _ (by simp [hqn]),
            List.find?_cons_of_pos _ (by simp [hqn])]
      · rw [List.find?_cons_of_neg _ (by simp [hqn]),
            List.find?_cons_of_neg _ (by simp [hqn])]
        exact ih hany2

theorem dedupStep_find? (acc : List ScrapedProf) (p : ScrapedProf) (n : String) :
    (dedupStep acc p).find? (fun q => q.name = n) =
      if p.name = n then some p else acc.find? (fun q => q.name = n) := by
  unfold dedupStep
  by_cases hany : acc.any (fun q => q.name = p.name) = true
  · rw [if_pos hany]
    exact find?_map_replace p n acc hany
  · rw [if_neg hany]
    rw [List.find?_append]
    by_cases hpn : p.name = n
    · rw [if_pos hpn]
      have hnone : acc.find? (fun q => q.name = n) = none := by
        rw [List.find?_eq_none]
        intro x hx hpx
        exact hany (List.any_eq_true.mpr ⟨x, hx, by
          simp only [decide_eq_true_eq] at hpx ⊢
          rw [hpx, hpn]⟩)
      rw [hnone]
      simp [List.find?, hpn]
    · rw [if_neg hpn]
      have hsing : ([p] : List ScrapedProf).find? (fun q => q.name = n) = none := by
        simp [List.find?, hpn]
      rw [hsing]
      cases acc.find? (fun q => q.name = n) <;> rfl

theorem dedupStep_names_nodup (acc : List ScrapedProf) (p : ScrapedProf)
    (h : (acc.map (fun q => q.name)).Nodup) :
    ((dedupStep acc p).map (fun q => q.name)).Nodup := by
  unfold dedupStep
  by_cases hany : acc.any (fun q => q.name = p.name) = true
  · rw [if_pos hany]
    rw [List.map_map]
    have : acc.map ((fun q => q.name) ∘ fun q => if q.name = p.name then p else q) =
        acc.map (fun q => q.name) := by
      apply List.map_congr_left
      intro q _
      simp only [Function.comp]
      split
      · rename_i hq; rw [← hq]
      · rfl
    rw [this]
    exact h
  · rw [if_neg hany]
    rw [List.map_append]
    refine List.Nodup.append h (by simp) ?_
    rw [List.map_singleton, List.disjoint_singleton]
    intro hmem
    apply hany
    obtain ⟨q, hq, hqe⟩ := List.mem_map.mp hmem
    exact List.any_eq_true.mpr ⟨q, hq, by simp [hqe]⟩

theorem lastWithName_append (l : List ScrapedProf) (p : ScrapedProf) (n : String) :
    lastWithName (l ++ [p]) n =
      if p.name = n then some p else lastWithName l n := by
  unfold lastWithName
  rw [List.filter_append]
  by_cases hpn : p.name = n
  · rw [if_pos hpn]
    have : ([p] : List ScrapedProf).filter (fun q => q.name = n) = [p] := by
      simp [List.filter, hpn]
    rw [this, List.getLast?_concat]
  · rw [if_neg hpn]
    have : ([p] : List ScrapedProf).filter (fun q => q.name = n) = [] := by
      simp [List.filter, hpn]
    rw [this, List.append_nil]

/-- Claim C10 (confirmed).  For any flat card sequence, the collection
returned by `scrape_professors` has pairwise-distinct professor names, and
the record it keeps for a name is exactly the LAST record with that name in
the id-deduplicated collected list — so of several scraped professors
sharing a name (even with distinct ids and URLs) only the last encountered
survives. -/
theorem scrape_professors_unique_last_per_name :
    ∀ cards : List ScrapedProf,
      ((scrape_professors cards).map (fun p => p.name)).Nodup ∧
      ∀ n, (scrape_professors cards).find? (fun p => p.name = n) =
             lastWithName (collectProfessors cards) n := by
  have main : ∀ l : List ScrapedProf,
      ((dedupByName l).map (fun p => p.name)).Nodup ∧
      ∀ n, (dedupByName l).find? (fun p => p.name = n) = lastWithName l n := by
    intro l
    induction l using List.reverseRecOn with
    | nil =>
      constructor
      · simp [dedupByName]
      · intro n; rfl
    | append_singleton l p ih =>
      have hstep : dedupByName (l ++ [p]) = dedupStep (dedupByName l) p := by
        unfold dedupByName
        rw [List.foldl_append]
        rfl
      rw [hstep]
      constructor
      · exact dedupStep_names_nodup _ p ih.1
      · intro n
        rw [dedupStep_find?, lastWithName_append]
        by_cases hpn : p.name = n
        · rw [if_pos hpn, if_pos hpn]
        · rw [if_neg hpn, if_neg hpn]
          exact ih.2 n
  intro cards
  exact main (collectProfessors cards)

end Scrapers
